import Mathlib

/-!
Shallow embedding of the real-time message relay of the chatmod repository.

The server side is `registerRoutes`'s WebSocket wiring (source: `src/unnamed/part_015`,
lines 55-161): a `Map<number, WebSocket[]>` of clients, a per-connection `userId`
variable, a message handler dispatching on `data.type`, and a close handler.
The durable store is `MemStorage` (source: `src/server/storage.ts`); only the
collections the relay consults are modelled (users, messages, chatMessages,
roomMembers and the two id counters); `Date` timestamps become `Nat`.
The client side is `SocketClient` (source: `src/client/src/lib/socket.ts`);
only the state its send guards read is modelled.

The embedding is single-threaded (the source runs on one event loop).  A store
write that throws is modelled by a `Faults` flag; `readyState === WebSocket.OPEN`
becomes an environment function `openOf : Conn → Bool` read at push time.
Every socket write and every store write performed while handling one inbound
frame is recorded, in program order, in a trace of `Event`s.
-/

namespace ChatMod

/-- A WebSocket connection handle; equality is handle identity (JS `===`). -/
structure Conn where
  id : Nat
deriving DecidableEq, Repr

/-- The server's `clients : Map<number, WebSocket[]>`, as an association list
(insertion ordered, unique keys when built by `mapSet`). -/
abbrev Registry := List (Int × List Conn)

/-- `Map.get`, returning `none` when the key is absent. -/
def mapGet (m : Registry) (k : Int) : Option (List Conn) :=
  match m with
  | [] => none
  | (k2, v) :: rest => if k2 = k then some v else mapGet rest k

/-- `Map.has`. -/
def mapHas (m : Registry) (k : Int) : Bool :=
  match m with
  | [] => false
  | (k2, _) :: rest => if k2 = k then true else mapHas rest k

/-- `Map.set`: replaces the value of an existing key in place, otherwise appends. -/
def mapSet (m : Registry) (k : Int) (v : List Conn) : Registry :=
  match m with
  | [] => [(k, v)]
  | (k2, v2) :: rest => if k2 = k then (k2, v) :: rest else (k2, v2) :: mapSet rest k v

/-- The spec's `connectionsFor`: in the source, `clients.get(u) || []`. -/
def connectionsFor (m : Registry) (u : Int) : List Conn :=
  (mapGet m u).getD []

/-- JavaScript `s || d` restricted to strings: the empty string is falsy. -/
def jsOr (s d : String) : String :=
  if s = "" then d else s

/-- A persisted direct message (storage.ts `Message`). -/
structure Message where
  id : Nat
  senderId : Int
  receiverId : Int
  content : String
  mediaType : String
  mediaUrl : String
  read : Bool
  createdAt : Nat
deriving DecidableEq, Repr

/-- A persisted room message (storage.ts `ChatMessage`). -/
structure ChatMessage where
  id : Nat
  roomId : Int
  userId : Int
  content : String
  mediaType : String
  mediaUrl : String
  createdAt : Nat
deriving DecidableEq, Repr

/-- A user record; of its many fields the relay only ever reads `id`
(in `getRoomMembers` and as fan-out key). -/
structure User where
  id : Int
deriving DecidableEq, Repr

/-- A room membership record (storage.ts `RoomMember`), fields the relay reads. -/
structure RoomMember where
  id : Nat
  roomId : Int
  userId : Int
deriving DecidableEq, Repr

/-- Argument of `createMessage` (the handler fills every field). -/
structure InsertMessage where
  senderId : Int
  receiverId : Int
  content : String
  mediaType : String
  mediaUrl : String
deriving DecidableEq, Repr

/-- Argument of `createChatMessage` (the handler fills every field). -/
structure InsertChatMessage where
  roomId : Int
  userId : Int
  content : String
  mediaType : String
  mediaUrl : String
deriving DecidableEq, Repr

/-- The slice of `MemStorage` the relay touches.  The JS `Map<number, T>`
collections keyed by a fresh counter id are modelled as append-ordered lists
of their values. -/
structure MemStorage where
  users : List User
  messages : List Message
  chatMessages : List ChatMessage
  roomMembers : List RoomMember
  currentMessageId : Nat
  currentChatMessageId : Nat
deriving DecidableEq, Repr

/-- storage.ts `createMessage`: assigns the next id, initializes `read: false`,
defaults `mediaType`/`mediaUrl` with JS `||`, and inserts. -/
def MemStorage.createMessage (s : MemStorage) (m : InsertMessage) (now : Nat) :
    Message × MemStorage :=
  let newMessage : Message :=
    { id := s.currentMessageId, senderId := m.senderId, receiverId := m.receiverId,
      content := m.content, read := false, createdAt := now,
      mediaType := jsOr m.mediaType "text", mediaUrl := jsOr m.mediaUrl "" }
  (newMessage,
   { s with messages := s.messages ++ [newMessage],
            currentMessageId := s.currentMessageId + 1 })

/-- storage.ts `createChatMessage`. -/
def MemStorage.createChatMessage (s : MemStorage) (m : InsertChatMessage) (now : Nat) :
    ChatMessage × MemStorage :=
  let newMessage : ChatMessage :=
    { id := s.currentChatMessageId, roomId := m.roomId, userId := m.userId,
      content := m.content, createdAt := now,
      mediaType := jsOr m.mediaType "text", mediaUrl := jsOr m.mediaUrl "" }
  (newMessage,
   { s with chatMessages := s.chatMessages ++ [newMessage],
            currentChatMessageId := s.currentChatMessageId + 1 })

/-- storage.ts `getRoomMembers`: the users whose id occurs among the room's
member records. -/
def MemStorage.getRoomMembers (s : MemStorage) (roomId : Int) : List User :=
  let memberIds := (s.roomMembers.filter (fun m => m.roomId == roomId)).map RoomMember.userId
  s.users.filter (fun u => memberIds.contains u.id)

/-- storage.ts `getChatMessagesByRoomId`: filter by room, sort by `createdAt`. -/
def MemStorage.getChatMessagesByRoomId (s : MemStorage) (roomId : Int) : List ChatMessage :=
  (s.chatMessages.filter (fun m => m.roomId == roomId)).mergeSort
    (fun a b => a.createdAt ≤ b.createdAt)

/-- Server → client frames (`JSON.stringify` payloads). -/
inductive OutFrame where
  | authSuccess : OutFrame
  | privateMessage : Message → OutFrame
  | chatMessage : ChatMessage → OutFrame
  | error : String → OutFrame
deriving DecidableEq, Repr

/-- One observable step of handling an inbound frame: a completed store write,
or a socket write (`someSocket.send(...)`) to a connection. -/
inductive Event where
  | persistDM : Message → Event
  | persistCM : ChatMessage → Event
  | send : Conn → OutFrame → Event
deriving DecidableEq, Repr

/-- A fan-out push: a socket write carrying a `private_message` or
`chat_message` frame. -/
def Event.isPush : Event → Bool
  | Event.send _ (OutFrame.privateMessage _) => true
  | Event.send _ (OutFrame.chatMessage _) => true
  | _ => false

/-- A completed persistence. -/
def Event.isPersist : Event → Bool
  | Event.persistDM _ => true
  | Event.persistCM _ => true
  | _ => false

/-- Whether an event is a push delivered to connection `c`. -/
def Event.isPushTo (e : Event) (c : Conn) : Bool :=
  match e with
  | Event.send c2 (OutFrame.privateMessage _) => c2 == c
  | Event.send c2 (OutFrame.chatMessage _) => c2 == c
  | _ => false

/-- Number of pushes (of either message kind) a trace delivers to connection `c`. -/
def pushCountTo (t : List Event) (c : Conn) : Nat :=
  t.countP (fun e => e.isPushTo c)

/-- The parsed shape of an inbound JSON frame.  `userId` is `some n` exactly
when `typeof data.userId === 'number'` holds in the source; the remaining
fields model present, well-typed JSON values. -/
structure FrameData where
  type : String
  userId : Option Int
  receiverId : Int
  roomId : Int
  content : String
  mediaType : String
  mediaUrl : String
deriving DecidableEq, Repr

/-- An inbound transport message: either text that `JSON.parse` rejects, or a
parsed frame. -/
inductive Inbound where
  | invalidJson : Inbound
  | frame : FrameData → Inbound
deriving DecidableEq, Repr

/-- The `InsertMessage` record the handler passes to `storage.createMessage`
(source lines 91-97): `senderId: userId, receiverId: data.receiverId,
content: data.content, mediaType: data.mediaType || 'text',
mediaUrl: data.mediaUrl || ''`. -/
def dmInsert (u : Int) (d : FrameData) : InsertMessage :=
  { senderId := u, receiverId := d.receiverId, content := d.content,
    mediaType := jsOr d.mediaType "text", mediaUrl := jsOr d.mediaUrl "" }

/-- The `InsertChatMessage` record the handler passes to
`storage.createChatMessage` (source lines 113-119). -/
def cmInsert (u : Int) (d : FrameData) : InsertChatMessage :=
  { roomId := d.roomId, userId := u, content := d.content,
    mediaType := jsOr d.mediaType "text", mediaUrl := jsOr d.mediaUrl "" }

/-- Injected store failures: whether the corresponding `storage.*` call throws. -/
structure Faults where
  createMessageFails : Bool
  createChatMessageFails : Bool
deriving DecidableEq, Repr

/-- The store behaves normally. -/
def noFaults : Faults :=
  { createMessageFails := false, createChatMessageFails := false }

/-- Result of handling one inbound message: the registry, the connection's
`userId` variable, the store, the ordered trace of writes, and whether the
handler body threw (to be caught by the surrounding `try`). -/
structure HRes where
  clients : Registry
  userId : Option Int
  store : MemStorage
  trace : List Event
  threw : Bool
deriving DecidableEq, Repr

/-- The body of the `ws.on('message')` handler after a successful `JSON.parse`
(source lines 73-136).  The three `if` branches are sequential in the source
but at most one fires since `data.type` is a single string. -/
def handleFrame (clients : Registry) (store : MemStorage) (ws : Conn) (uid0 : Option Int)
    (openOf : Conn → Bool) (faults : Faults) (now : Nat) (d : FrameData) : HRes :=
  -- `if (data.type === 'auth' && typeof data.userId === 'number')`
  let step1 : Registry × Option Int × List Event :=
    if d.type = "auth" then
      match d.userId with
      | some u =>
        -- `if (!clients.has(userId)) clients.set(userId, []); clients.get(userId)!.push(ws)`
        (mapSet clients u (connectionsFor clients u ++ [ws]), some u,
         [Event.send ws OutFrame.authSuccess])
      | none => (clients, uid0, [])
    else (clients, uid0, [])
  let clients1 := step1.1
  let uid1 := step1.2.1
  let evs1 := step1.2.2
  -- `if (data.type === 'private_message' && userId !== null)`
  if d.type = "private_message" then
    match uid1 with
    | some u =>
      let receiverConnections := connectionsFor clients1 d.receiverId
      if faults.createMessageFails then
        { clients := clients1, userId := some u, store := store, trace := evs1, threw := true }
      else
        let pr := store.createMessage (dmInsert u d) now
        let pushes := (receiverConnections.filter openOf).map
          (fun c => Event.send c (OutFrame.privateMessage pr.1))
        { clients := clients1, userId := some u, store := pr.2,
          trace := evs1 ++ Event.persistDM pr.1 :: pushes, threw := false }
    | none =>
      { clients := clients1, userId := uid1, store := store, trace := evs1, threw := false }
  -- `if (data.type === 'chat_message' && userId !== null)`
  else if d.type = "chat_message" then
    match uid1 with
    | some u =>
      if faults.createChatMessageFails then
        { clients := clients1, userId := some u, store := store, trace := evs1, threw := true }
      else
        let pr := store.createChatMessage (cmInsert u d) now
        let roomMembers := pr.2.getRoomMembers d.roomId
        let pushes := roomMembers.flatMap (fun member =>
          ((connectionsFor clients1 member.id).filter openOf).map
            (fun c => Event.send c (OutFrame.chatMessage pr.1)))
        { clients := clients1, userId := some u, store := pr.2,
          trace := evs1 ++ Event.persistCM pr.1 :: pushes, threw := false }
    | none =>
      { clients := clients1, userId := uid1, store := store, trace := evs1, threw := false }
  else
    { clients := clients1, userId := uid1, store := store, trace := evs1, threw := false }

/-- The full `ws.on('message')` handler (source lines 68-149): `JSON.parse`
failure and a thrown store write land in the `catch`, which sends an `error`
frame to the originating connection when it is still open. -/
def wsOnMessage (clients : Registry) (store : MemStorage) (ws : Conn) (uid : Option Int)
    (openOf : Conn → Bool) (faults : Faults) (now : Nat) (inbound : Inbound) : HRes :=
  match inbound with
  | Inbound.invalidJson =>
    { clients := clients, userId := uid, store := store,
      trace := if openOf ws then [Event.send ws (OutFrame.error "Failed to process message")] else [],
      threw := true }
  | Inbound.frame d =>
    let r := handleFrame clients store ws uid openOf faults now d
    if r.threw then
      { r with trace := r.trace ++
          (if openOf ws then [Event.send ws (OutFrame.error "Failed to process message")] else []) }
    else r

/-- The `ws.on('close')` handler (source lines 151-156).  `if (userId)` is JS
truthiness: `0` (and an unauthenticated `null`) skip the cleanup.  The entry
is overwritten with the filtered array; it is never deleted. -/
def handleClose (clients : Registry) (ws : Conn) (uid : Option Int) : Registry :=
  match uid with
  | some u =>
    if u = 0 then clients
    else mapSet clients u ((connectionsFor clients u).filter (fun c => c != ws))
  | none => clients

/-- A client-side socket's `readyState`. -/
inductive RState where
  | connecting : RState
  | opened : RState
  | closing : RState
  | closedS : RState
deriving DecidableEq, Repr

/-- Frames the client writes to its socket. -/
inductive ClientOut where
  | auth : Int → ClientOut
  | privateMessage : Int → String → String → String → ClientOut
  | chatMessage : Int → String → String → String → ClientOut
deriving DecidableEq, Repr

/-- The slice of socket.ts `SocketClient` state read by its send guards:
`this.socket` (as its readyState, or `none`) and `this.authenticated`. -/
structure SocketClient where
  socket : Option RState
  authenticated : Bool
deriving DecidableEq, Repr

/-- socket.ts `isConnected`: `this.socket?.readyState === WebSocket.OPEN`. -/
def SocketClient.isConnected (sc : SocketClient) : Bool :=
  match sc.socket with
  | some s => s == RState.opened
  | none => false

/-- socket.ts `isAuthenticated`. -/
def SocketClient.isAuthenticated (sc : SocketClient) : Bool :=
  sc.authenticated

/-- socket.ts `sendPrivateMessage`: returns the boolean result together with
the frames written to the socket (none when the guard fails: no queueing). -/
def SocketClient.sendPrivateMessage (sc : SocketClient) (receiverId : Int)
    (content mediaType mediaUrl : String) : Bool × List ClientOut :=
  if !sc.isConnected || !sc.isAuthenticated then (false, [])
  else (true, [ClientOut.privateMessage receiverId content mediaType mediaUrl])

/-- socket.ts `sendChatRoomMessage`. -/
def SocketClient.sendChatRoomMessage (sc : SocketClient) (roomId : Int)
    (content mediaType mediaUrl : String) : Bool × List ClientOut :=
  if !sc.isConnected || !sc.isAuthenticated then (false, [])
  else (true, [ClientOut.chatMessage roomId content mediaType mediaUrl])

/-- A store with no records yet (counters start at 1 as in the source
constructor). -/
def emptyStore : MemStorage :=
  { users := [], messages := [], chatMessages := [], roomMembers := [],
    currentMessageId := 1, currentChatMessageId := 1 }

/-! ### Registry lemmas -/

theorem mapGet_mapSet_self (m : Registry) (k : Int) (v : List Conn) :
    mapGet (mapSet m k v) k = some v := by
  induction m with
  | nil => simp [mapGet, mapSet]
  | cons p rest ih =>
    obtain ⟨k2, v2⟩ := p
    by_cases h : k2 = k
    · simp [mapGet, mapSet, h]
    · simp [mapGet, mapSet, h, ih]

theorem mapGet_mapSet_ne (m : Registry) (k k2 : Int) (v : List Conn) (h : k ≠ k2) :
    mapGet (mapSet m k v) k2 = mapGet m k2 := by
  induction m with
  | nil => simp [mapGet, mapSet, fun hh => h hh]
  | cons p rest ih =>
    obtain ⟨k3, v3⟩ := p
    by_cases h3 : k3 = k
    · subst h3
      simp [mapGet, mapSet, h]
    · simp [mapGet, mapSet, h3, ih]

theorem mapHas_mapSet_self (m : Registry) (k : Int) (v : List Conn) :
    mapHas (mapSet m k v) k = true := by
  induction m with
  | nil => simp [mapHas, mapSet]
  | cons p rest ih =>
    obtain ⟨k2, v2⟩ := p
    by_cases h : k2 = k
    · simp [mapHas, mapSet, h]
    · simp [mapHas, mapSet, h, ih]

theorem connectionsFor_mapSet_self (m : Registry) (k : Int) (v : List Conn) :
    connectionsFor (mapSet m k v) k = v := by
  simp [connectionsFor, mapGet_mapSet_self]

theorem connectionsFor_mapSet_ne (m : Registry) (k k2 : Int) (v : List Conn) (h : k ≠ k2) :
    connectionsFor (mapSet m k v) k2 = connectionsFor m k2 := by
  simp [connectionsFor, mapGet_mapSet_ne m k k2 v h]

/-! ### Counting lemmas -/

theorem count_send_map (l : List Conn) (c : Conn) (f : OutFrame)
    (g : Conn → OutFrame) (hg : ∀ c2, g c2 = f) :
    ((l.map (fun c2 => Event.send c2 (g c2))).count (Event.send c f)) = l.count c := by
  induction l with
  | nil => simp
  | cons a t ih =>
    simp only [List.map_cons, List.count_cons, ih, hg a]
    have : (Event.send a f == Event.send c f) = (a == c) := by
      by_cases h : a = c
      · simp [h]
      · simp [h, Event.send.injEq]
    rw [this]

theorem count_flatMap_eq_one {α : Type} (l : List α) (f : α → List Event) (e : Event) (a : α)
    (hnd : l.Nodup) (ha : a ∈ l) (h1 : (f a).count e = 1)
    (h0 : ∀ b ∈ l, b ≠ a → (f b).count e = 0) :
    (l.flatMap f).count e = 1 := by
  induction l with
  | nil => cases ha
  | cons x t ih =>
    rw [List.flatMap_cons, List.count_append]
    rcases List.mem_cons.mp ha with hax | hat
    · subst hax
      have ht : (t.flatMap f).count e = 0 := by
        rw [List.count_eq_zero]
        intro hmem
        rcases List.mem_flatMap.mp hmem with ⟨b, hb, hbe⟩
        have hbx : b ≠ a := by
          intro hbx
          subst hbx
          exact (List.nodup_cons.mp hnd).1 hb
        have := h0 b (List.mem_cons_of_mem a hb) hbx
        rw [List.count_eq_zero] at this
        exact this hbe
      rw [h1, ht]
    · have hxa : x ≠ a := by
        intro hxa
        subst hxa
        exact (List.nodup_cons.mp hnd).1 hat
      have hx : (f x).count e = 0 := h0 x (List.mem_cons_self x t) hxa
      rw [hx]
      have := ih (List.nodup_cons.mp hnd).2 hat
        (fun b hb hba => h0 b (List.mem_cons_of_mem x hb) hba)
      rw [this]

/-! ### Handler characterization lemmas -/

theorem wsOnMessage_auth_some (clients : Registry) (store : MemStorage) (ws : Conn)
    (uid0 : Option Int) (openOf : Conn → Bool) (faults : Faults) (now : Nat)
    (d : FrameData) (u : Int) (hty : d.type = "auth") (hu : d.userId = some u) :
    wsOnMessage clients store ws uid0 openOf faults now (Inbound.frame d) =
      { clients := mapSet clients u (connectionsFor clients u ++ [ws]), userId := some u,
        store := store, trace := [Event.send ws OutFrame.authSuccess], threw := false } := by
  simp [wsOnMessage, handleFrame, hty, hu]

theorem wsOnMessage_auth_none (clients : Registry) (store : MemStorage) (ws : Conn)
    (uid0 : Option Int) (openOf : Conn → Bool) (faults : Faults) (now : Nat)
    (d : FrameData) (hty : d.type = "auth") (hu : d.userId = none) :
    wsOnMessage clients store ws uid0 openOf faults now (Inbound.frame d) =
      { clients := clients, userId := uid0, store := store, trace := [], threw := false } := by
  simp [wsOnMessage, handleFrame, hty, hu]

theorem wsOnMessage_pm_ok (clients : Registry) (store : MemStorage) (ws : Conn) (u : Int)
    (openOf : Conn → Bool) (faults : Faults) (now : Nat) (d : FrameData)
    (hty : d.type = "private_message") (hf : faults.createMessageFails = false) :
    wsOnMessage clients store ws (some u) openOf faults now (Inbound.frame d) =
      (let pr := store.createMessage (dmInsert u d) now
       { clients := clients, userId := some u, store := pr.2,
         trace := Event.persistDM pr.1 ::
           ((connectionsFor clients d.receiverId).filter openOf).map
             (fun c => Event.send c (OutFrame.privateMessage pr.1)),
         threw := false }) := by
  simp [wsOnMessage, handleFrame, hty, hf]

theorem wsOnMessage_pm_fail (clients : Registry) (store : MemStorage) (ws : Conn) (u : Int)
    (openOf : Conn → Bool) (faults : Faults) (now : Nat) (d : FrameData)
    (hty : d.type = "private_message") (hf : faults.createMessageFails = true) :
    wsOnMessage clients store ws (some u) openOf faults now (Inbound.frame d) =
      { clients := clients, userId := some u, store := store,
        trace := if openOf ws then [Event.send ws (OutFrame.error "Failed to process message")]
                 else [],
        threw := true } := by
  simp [wsOnMessage, handleFrame, hty, hf]

theorem wsOnMessage_cm_ok (clients : Registry) (store : MemStorage) (ws : Conn) (u : Int)
    (openOf : Conn → Bool) (faults : Faults) (now : Nat) (d : FrameData)
    (hty : d.type = "chat_message") (hf : faults.createChatMessageFails = false) :
    wsOnMessage clients store ws (some u) openOf faults now (Inbound.frame d) =
      (let pr := store.createChatMessage (cmInsert u d) now
       { clients := clients, userId := some u, store := pr.2,
         trace := Event.persistCM pr.1 ::
           (pr.2.getRoomMembers d.roomId).flatMap (fun member =>
             ((connectionsFor clients member.id).filter openOf).map
               (fun c => Event.send c (OutFrame.chatMessage pr.1))),
         threw := false }) := by
  simp [wsOnMessage, handleFrame, hty, hf]

theorem wsOnMessage_cm_fail (clients : Registry) (store : MemStorage) (ws : Conn) (u : Int)
    (openOf : Conn → Bool) (faults : Faults) (now : Nat) (d : FrameData)
    (hty : d.type = "chat_message") (hf : faults.createChatMessageFails = true) :
    wsOnMessage clients store ws (some u) openOf faults now (Inbound.frame d) =
      { clients := clients, userId := some u, store := store,
        trace := if openOf ws then [Event.send ws (OutFrame.error "Failed to process message")]
                 else [],
        threw := true } := by
  simp [wsOnMessage, handleFrame, hty, hf]

theorem wsOnMessage_unknown_type (clients : Registry) (store : MemStorage) (ws : Conn)
    (uid0 : Option Int) (openOf : Conn → Bool) (faults : Faults) (now : Nat)
    (d : FrameData) (h1 : d.type ≠ "auth") (h2 : d.type ≠ "private_message")
    (h3 : d.type ≠ "chat_message") :
    wsOnMessage clients store ws uid0 openOf faults now (Inbound.frame d) =
      { clients := clients, userId := uid0, store := store, trace := [], threw := false } := by
  simp [wsOnMessage, handleFrame, h1, h2, h3]

theorem wsOnMessage_invalidJson (clients : Registry) (store : MemStorage) (ws : Conn)
    (uid0 : Option Int) (openOf : Conn → Bool) (faults : Faults) (now : Nat) :
    wsOnMessage clients store ws uid0 openOf faults now Inbound.invalidJson =
      { clients := clients, userId := uid0, store := store,
        trace := if openOf ws then [Event.send ws (OutFrame.error "Failed to process message")]
                 else [],
        threw := true } := by
  simp [wsOnMessage]

/-! ### Small trace lemmas -/

@[simp] theorem isPush_send_error (c : Conn) (s : String) :
    (Event.send c (OutFrame.error s)).isPush = false := rfl

@[simp] theorem isPush_send_authSuccess (c : Conn) :
    (Event.send c OutFrame.authSuccess).isPush = false := rfl

@[simp] theorem isPush_send_pm (c : Conn) (m : Message) :
    (Event.send c (OutFrame.privateMessage m)).isPush = true := rfl

@[simp] theorem isPush_send_cm (c : Conn) (m : ChatMessage) :
    (Event.send c (OutFrame.chatMessage m)).isPush = true := rfl

@[simp] theorem isPush_persistDM (m : Message) : (Event.persistDM m).isPush = false := rfl

@[simp] theorem isPush_persistCM (m : ChatMessage) : (Event.persistCM m).isPush = false := rfl

@[simp] theorem isPersist_persistDM (m : Message) : (Event.persistDM m).isPersist = true := rfl

@[simp] theorem isPersist_persistCM (m : ChatMessage) : (Event.persistCM m).isPersist = true := rfl

@[simp] theorem isPushTo_persistDM (m : Message) (c : Conn) :
    (Event.persistDM m).isPushTo c = false := rfl

@[simp] theorem isPushTo_persistCM (m : ChatMessage) (c : Conn) :
    (Event.persistCM m).isPushTo c = false := rfl

@[simp] theorem isPushTo_send_pm (c2 c : Conn) (m : Message) :
    (Event.send c2 (OutFrame.privateMessage m)).isPushTo c = (c2 == c) := rfl

@[simp] theorem isPushTo_send_cm (c2 c : Conn) (m : ChatMessage) :
    (Event.send c2 (OutFrame.chatMessage m)).isPushTo c = (c2 == c) := rfl

@[simp] theorem isPushTo_send_auth (c2 c : Conn) :
    (Event.send c2 OutFrame.authSuccess).isPushTo c = false := rfl

@[simp] theorem isPushTo_send_error (c2 c : Conn) (s : String) :
    (Event.send c2 (OutFrame.error s)).isPushTo c = false := rfl

theorem countP_beq_eq_count (l : List Conn) (c : Conn) :
    l.countP (fun c2 => c2 == c) = l.count c := rfl

theorem any_take_head_persist (e : Event) (he : e.isPersist = true) (rest : List Event) :
    ∀ n : Nat, ((e :: rest).take n).any Event.isPush = true →
      ((e :: rest).take n).any Event.isPersist = true := by
  intro n h
  cases n with
  | zero => simp at h
  | succ k => simp [List.take_succ_cons, he]

/-! ### Concrete input fixtures -/

/-- An `auth` frame for user `n`. -/
def authFrame (n : Int) : FrameData :=
  { type := "auth", userId := some n, receiverId := 0, roomId := 0,
    content := "", mediaType := "", mediaUrl := "" }

/-- A `private_message` frame to receiver `rid`. -/
def pmFrame (rid : Int) (content : String) : FrameData :=
  { type := "private_message", userId := none, receiverId := rid, roomId := 0,
    content := content, mediaType := "text", mediaUrl := "" }

/-- A `chat_message` frame to room `rm`. -/
def cmFrame (rm : Int) (content : String) : FrameData :=
  { type := "chat_message", userId := none, receiverId := 0, roomId := rm,
    content := content, mediaType := "text", mediaUrl := "" }

/-! ### Claims -/

/-- Claim C1: for every `private_message` or `chat_message` frame from an
authenticated connection, no fan-out push is emitted before the message has
been persisted (every prefix of the handler's write trace that contains a push
already contains the persistence); and if the corresponding store write throws,
the trace contains zero pushes and the sending connection (while open) receives
the `error` frame. -/
theorem c1_no_push_before_persist
    (clients : Registry) (store : MemStorage) (ws : Conn) (u : Int)
    (openOf : Conn → Bool) (faults : Faults) (now : Nat) (d : FrameData)
    (hty : d.type = "private_message" ∨ d.type = "chat_message")
    (hopen : openOf ws = true) :
    (∀ n : Nat,
      (((wsOnMessage clients store ws (some u) openOf faults now (Inbound.frame d)).trace.take n).any
          Event.isPush) = true →
      (((wsOnMessage clients store ws (some u) openOf faults now (Inbound.frame d)).trace.take n).any
          Event.isPersist) = true) ∧
    (((d.type = "private_message" ∧ faults.createMessageFails = true) ∨
      (d.type = "chat_message" ∧ faults.createChatMessageFails = true)) →
      (wsOnMessage clients store ws (some u) openOf faults now (Inbound.frame d)).trace.countP
          Event.isPush = 0 ∧
      Event.send ws (OutFrame.error "Failed to process message") ∈
        (wsOnMessage clients store ws (some u) openOf faults now (Inbound.frame d)).trace) := by
  rcases hty with hpm | hcm
  · cases hf : faults.createMessageFails with
    | false =>
      rw [wsOnMessage_pm_ok clients store ws u openOf faults now d hpm hf]
      constructor
      · intro n h
        cases n with
        | zero => simp at h
        | succ k => simp [List.take_succ_cons]
      · intro hcontra
        rcases hcontra with ⟨_, hflag⟩ | ⟨hcm2, _⟩
        · cases hflag
        · rw [hpm] at hcm2; exact absurd hcm2 (by decide)
    | true =>
      rw [wsOnMessage_pm_fail clients store ws u openOf faults now d hpm hf]
      refine ⟨?_, fun _ => ⟨?_, ?_⟩⟩
      · intro n h
        exfalso
        rw [hopen] at h
        cases n with
        | zero => simp at h
        | succ k => simp [List.take_succ_cons] at h
      · simp [hopen]
      · simp [hopen]
  · cases hf : faults.createChatMessageFails with
    | false =>
      rw [wsOnMessage_cm_ok clients store ws u openOf faults now d hcm hf]
      constructor
      · intro n h
        cases n with
        | zero => simp at h
        | succ k => simp [List.take_succ_cons]
      · intro hcontra
        rcases hcontra with ⟨hpm2, _⟩ | ⟨_, hflag⟩
        · rw [hcm] at hpm2; exact absurd hpm2 (by decide)
        · cases hflag
    | true =>
      rw [wsOnMessage_cm_fail clients store ws u openOf faults now d hcm hf]
      refine ⟨?_, fun _ => ⟨?_, ?_⟩⟩
      · intro n h
        exfalso
        rw [hopen] at h
        cases n with
        | zero => simp at h
        | succ k => simp [List.take_succ_cons] at h
      · simp [hopen]
      · simp [hopen]

/-- Claim C2: for a direct message from authenticated sender `u` to receiver
`d.receiverId` with `u ≠ d.receiverId`, when persistence succeeds every open
connection registered to the receiver gets exactly one push, which carries the
persisted message; connections not registered to the receiver (in particular
the sender's, which the source keeps in a different map entry) get none; an
offline receiver yields zero pushes; and the store always ends up holding the
message with the sent fields and `read = false`.  The receiver's registry
entry is a set of connections, hence the `Nodup` hypothesis. -/
theorem c2_direct_message_fanout
    (clients : Registry) (store : MemStorage) (ws : Conn) (u : Int)
    (openOf : Conn → Bool) (now : Nat) (d : FrameData)
    (hty : d.type = "private_message")
    (_hne : u ≠ d.receiverId)
    (hnodup : (connectionsFor clients d.receiverId).Nodup) :
    (∀ c : Conn, c ∈ connectionsFor clients d.receiverId → openOf c = true →
      (wsOnMessage clients store ws (some u) openOf noFaults now (Inbound.frame d)).trace.count
        (Event.send c (OutFrame.privateMessage (store.createMessage (dmInsert u d) now).1)) = 1 ∧
      pushCountTo
        (wsOnMessage clients store ws (some u) openOf noFaults now (Inbound.frame d)).trace c = 1) ∧
    (∀ c : Conn, c ∉ connectionsFor clients d.receiverId →
      pushCountTo
        (wsOnMessage clients store ws (some u) openOf noFaults now (Inbound.frame d)).trace c = 0) ∧
    ((connectionsFor clients d.receiverId).filter openOf = [] →
      (wsOnMessage clients store ws (some u) openOf noFaults now
        (Inbound.frame d)).trace.countP Event.isPush = 0) ∧
    ((store.createMessage (dmInsert u d) now).1 ∈
      (wsOnMessage clients store ws (some u) openOf noFaults now (Inbound.frame d)).store.messages ∧
     (store.createMessage (dmInsert u d) now).1.senderId = u ∧
     (store.createMessage (dmInsert u d) now).1.receiverId = d.receiverId ∧
     (store.createMessage (dmInsert u d) now).1.content = d.content ∧
     (store.createMessage (dmInsert u d) now).1.read = false) := by
  rw [wsOnMessage_pm_ok clients store ws u openOf noFaults now d hty rfl]
  refine ⟨?_, ?_, ?_, ?_⟩
  · intro c hc hopen
    constructor
    · rw [List.count_cons]
      have hhead : ((Event.persistDM (store.createMessage (dmInsert u d) now).1) ==
          (Event.send c (OutFrame.privateMessage (store.createMessage (dmInsert u d) now).1)))
          = false := rfl
      rw [hhead]
      simp only [Bool.false_eq_true, reduceIte, Nat.add_zero]
      rw [count_send_map _ c _ _ (fun _ => rfl)]
      exact List.count_eq_one_of_mem (hnodup.filter openOf)
        (List.mem_filter.mpr ⟨hc, hopen⟩)
    · unfold pushCountTo
      rw [List.countP_cons]
      simp only [isPushTo_persistDM, Bool.false_eq_true, reduceIte, Nat.add_zero]
      rw [List.countP_map]
      have hcomp : ((fun e => Event.isPushTo e c) ∘
          fun c2 => Event.send c2 (OutFrame.privateMessage
            (store.createMessage (dmInsert u d) now).1)) = fun c2 => c2 == c := rfl
      rw [hcomp, countP_beq_eq_count]
      exact List.count_eq_one_of_mem (hnodup.filter openOf)
        (List.mem_filter.mpr ⟨hc, hopen⟩)
  · intro c hc
    unfold pushCountTo
    rw [List.countP_eq_zero]
    intro e he
    rcases List.mem_cons.mp he with hhd | htl
    · subst hhd; simp
    · rcases List.mem_map.mp htl with ⟨c2, hc2, hce⟩
      subst hce
      have hc2mem : c2 ∈ connectionsFor clients d.receiverId :=
        (List.mem_filter.mp hc2).1
      have hdiff : c2 ≠ c := fun hcc => hc (hcc ▸ hc2mem)
      simp [hdiff]
  · intro hempty
    rw [hempty]
    simp
  · refine ⟨?_, rfl, rfl, rfl, rfl⟩
    simp [MemStorage.createMessage]

/-- Claim C3: for a `chat_message` from an authenticated sender, after
successful persistence the recipient set is the room membership read from the
store at fan-out time (which, the first conjunct shows, is the post-persist
store's membership); each member — the sender included when a member — gets
exactly one push per open connection; a closed connection gets nothing, for
every possible open-state environment, so a dead connection never disturbs the
remaining deliveries; every push goes to an open connection of some member;
and the message is retrievable from the store afterwards.  Registry entries
are sets and one connection belongs to one user, hence the `Nodup` and
disjointness hypotheses; user ids are `Map` keys, hence `hids`. -/
theorem c3_room_message_fanout
    (clients : Registry) (store : MemStorage) (ws : Conn) (u : Int)
    (openOf : Conn → Bool) (now : Nat) (d : FrameData)
    (hty : d.type = "chat_message")
    (hids : (store.users.map User.id).Nodup)
    (hnd : ∀ m ∈ store.getRoomMembers d.roomId, (connectionsFor clients m.id).Nodup)
    (hdisj : ∀ m1 ∈ store.getRoomMembers d.roomId, ∀ m2 ∈ store.getRoomMembers d.roomId,
      m1 ≠ m2 → ∀ c ∈ connectionsFor clients m1.id, c ∉ connectionsFor clients m2.id) :
    ((wsOnMessage clients store ws (some u) openOf noFaults now
        (Inbound.frame d)).store.getRoomMembers d.roomId = store.getRoomMembers d.roomId) ∧
    (∀ m ∈ store.getRoomMembers d.roomId, ∀ c ∈ connectionsFor clients m.id,
      openOf c = true →
      (wsOnMessage clients store ws (some u) openOf noFaults now (Inbound.frame d)).trace.count
        (Event.send c (OutFrame.chatMessage
          (store.createChatMessage (cmInsert u d) now).1)) = 1) ∧
    (∀ c : Conn, openOf c = false →
      pushCountTo
        (wsOnMessage clients store ws (some u) openOf noFaults now (Inbound.frame d)).trace c = 0) ∧
    (∀ c : Conn,
      0 < pushCountTo
        (wsOnMessage clients store ws (some u) openOf noFaults now (Inbound.frame d)).trace c →
      openOf c = true ∧ ∃ m, m ∈ store.getRoomMembers d.roomId ∧
        c ∈ connectionsFor clients m.id) ∧
    ((store.createChatMessage (cmInsert u d) now).1 ∈
      (wsOnMessage clients store ws (some u) openOf noFaults now
        (Inbound.frame d)).store.getChatMessagesByRoomId d.roomId) := by
  rw [wsOnMessage_cm_ok clients store ws u openOf noFaults now d hty rfl]
  have hm : (store.createChatMessage (cmInsert u d) now).2.getRoomMembers d.roomId =
      store.getRoomMembers d.roomId := rfl
  have hmembersnd : (store.getRoomMembers d.roomId).Nodup :=
    (hids.of_map _).filter _
  refine ⟨rfl, ?_, ?_, ?_, ?_⟩
  · intro m hmem c hc hopen
    rw [List.count_cons]
    have hhead : ((Event.persistCM (store.createChatMessage (cmInsert u d) now).1) ==
        (Event.send c (OutFrame.chatMessage (store.createChatMessage (cmInsert u d) now).1)))
        = false := rfl
    rw [hhead]
    simp only [Bool.false_eq_true, reduceIte, Nat.add_zero]
    rw [hm]
    refine count_flatMap_eq_one (store.getRoomMembers d.roomId) _ _ m hmembersnd hmem ?_ ?_
    · rw [count_send_map _ c _ _ (fun _ => rfl)]
      exact List.count_eq_one_of_mem ((hnd m hmem).filter openOf)
        (List.mem_filter.mpr ⟨hc, hopen⟩)
    · intro b hb hbm
      rw [count_send_map _ c _ _ (fun _ => rfl)]
      rw [List.count_eq_zero]
      intro hcb
      have hcb2 : c ∈ connectionsFor clients b.id := (List.mem_filter.mp hcb).1
      exact hdisj m hmem b hb (fun hmb => hbm (hmb ▸ rfl)) c hc hcb2
  · intro c hcopen
    unfold pushCountTo
    rw [List.countP_eq_zero]
    intro e he
    rcases List.mem_cons.mp he with hhd | htl
    · subst hhd; simp
    · rcases List.mem_flatMap.mp htl with ⟨member, hmem2, he2⟩
      rcases List.mem_map.mp he2 with ⟨c2, hc2, hce⟩
      subst hce
      have hopen2 : openOf c2 = true := (List.mem_filter.mp hc2).2
      have hdiff : c2 ≠ c := by
        intro hcc
        rw [hcc] at hopen2
        rw [hopen2] at hcopen
        cases hcopen
      simp [hdiff]
  · intro c hpos
    unfold pushCountTo at hpos
    rcases List.countP_pos_iff.mp hpos with ⟨e, he, hpe⟩
    rcases List.mem_cons.mp he with hhd | htl
    · subst hhd; simp at hpe
    · rcases List.mem_flatMap.mp htl with ⟨member, hmem2, he2⟩
      rcases List.mem_map.mp he2 with ⟨c2, hc2, hce⟩
      subst hce
      simp only [isPushTo_send_cm, beq_iff_eq] at hpe
      subst hpe
      rw [hm] at hmem2
      exact ⟨(List.mem_filter.mp hc2).2, member, hmem2, (List.mem_filter.mp hc2).1⟩
  · unfold MemStorage.getChatMessagesByRoomId
    rw [List.mem_mergeSort]
    refine List.mem_filter.mpr ⟨?_, by simp [MemStorage.createChatMessage, cmInsert]⟩
    have : (store.createChatMessage (cmInsert u d) now).2.chatMessages =
        store.chatMessages ++ [(store.createChatMessage (cmInsert u d) now).1] := rfl
    rw [this]
    exact List.mem_append_right _ (List.mem_singleton.mpr rfl)

/-- Counterexample to claim C4 as stated: user 1's only connection closes,
yet a registry entry for user 1 remains (mapped to the empty array) — the
close handler never deletes the key, so the empty entry is not pruned. -/
theorem c4_counterexample :
    handleClose [(1, [Conn.mk 1])] (Conn.mk 1) (some 1) = [(1, [])] ∧
    mapHas (handleClose [(1, [Conn.mk 1])] (Conn.mk 1) (some 1)) 1 = true := by
  decide

/-- Claim C4 (amended): on transport close of a connection authenticated as
user `u` (with `u ≠ 0`, since the source guard `if (userId)` skips the falsy
id 0), the handle is removed from `u`'s connection list — `connectionsFor u`
is exactly the previous list with the closed handle filtered out, and other
users' entries are untouched — but the entry itself is never deleted: the key
remains present (mapped to an empty list once the last connection closes). -/
theorem c4_close_removes_but_entry_remains
    (clients : Registry) (ws : Conn) (u : Int) (h : u ≠ 0) :
    connectionsFor (handleClose clients ws (some u)) u =
      (connectionsFor clients u).filter (fun c => c != ws) ∧
    ws ∉ connectionsFor (handleClose clients ws (some u)) u ∧
    mapHas (handleClose clients ws (some u)) u = true ∧
    (∀ v : Int, v ≠ u → connectionsFor (handleClose clients ws (some u)) v =
      connectionsFor clients v) := by
  have hred : handleClose clients ws (some u) =
      mapSet clients u ((connectionsFor clients u).filter (fun c => c != ws)) := by
    simp [handleClose, h]
  rw [hred]
  refine ⟨connectionsFor_mapSet_self _ _ _, ?_, mapHas_mapSet_self _ _ _, ?_⟩
  · rw [connectionsFor_mapSet_self]
    intro hmem
    have hne2 := (List.mem_filter.mp hmem).2
    simp at hne2
  · intro v hv
    exact connectionsFor_mapSet_ne _ u v _ (fun h2 => hv h2.symm)

/-- Witness for the amended C4 at a concrete input. -/
theorem c4_witness :
    (1 : Int) ≠ 0 ∧
    (connectionsFor (handleClose [(1, [Conn.mk 1])] (Conn.mk 1) (some 1)) 1 =
      (connectionsFor [(1, [Conn.mk 1])] 1).filter (fun c => c != Conn.mk 1) ∧
    Conn.mk 1 ∉ connectionsFor (handleClose [(1, [Conn.mk 1])] (Conn.mk 1) (some 1)) 1 ∧
    mapHas (handleClose [(1, [Conn.mk 1])] (Conn.mk 1) (some 1)) 1 = true ∧
    (∀ v : Int, v ≠ 1 → connectionsFor (handleClose [(1, [Conn.mk 1])] (Conn.mk 1) (some 1)) v =
      connectionsFor [(1, [Conn.mk 1])] v)) :=
  ⟨by decide, c4_close_removes_but_entry_remains [(1, [Conn.mk 1])] (Conn.mk 1) 1 (by decide)⟩

/-- Counterexample to claim C5 as stated: two identical successful auth
frames do not leave the registry as one does — the connection is appended
twice — and a single subsequent deliver of one direct message pushes it twice
to that one connection. -/
theorem c5_counterexample :
    (wsOnMessage
      (wsOnMessage [] emptyStore (Conn.mk 1) none (fun _ => true) noFaults 0
        (Inbound.frame (authFrame 7))).clients
      emptyStore (Conn.mk 1) (some 7) (fun _ => true) noFaults 0
      (Inbound.frame (authFrame 7))).clients ≠
    (wsOnMessage [] emptyStore (Conn.mk 1) none (fun _ => true) noFaults 0
      (Inbound.frame (authFrame 7))).clients ∧
    pushCountTo
      (wsOnMessage [(7, [Conn.mk 1, Conn.mk 1])] emptyStore (Conn.mk 2) (some 8)
        (fun _ => true) noFaults 0
        (Inbound.frame (pmFrame 7 "hi"))).trace (Conn.mk 1) = 2 := by
  constructor
  · decide
  · decide

/-- Claim C5 (amended): registration in the session registry is NOT
idempotent.  A second successful auth frame for the same user and connection
appends the connection to the user's array again (set semantics are absent),
and a single subsequent deliver of a direct message to that user pushes the
message at least twice to that connection. -/
theorem c5_register_appends_again
    (clients : Registry) (store : MemStorage) (ws : Conn) (u : Int)
    (openOf : Conn → Bool) (faults : Faults) (now : Nat) (d : FrameData)
    (hty : d.type = "auth") (hu : d.userId = some u) (hopen : openOf ws = true) :
    connectionsFor
      (wsOnMessage
        (wsOnMessage clients store ws none openOf faults now (Inbound.frame d)).clients
        store ws (some u) openOf faults now (Inbound.frame d)).clients u =
      connectionsFor clients u ++ [ws, ws] ∧
    (∀ (ws2 : Conn) (u2 : Int) (d2 : FrameData) (store2 : MemStorage),
      d2.type = "private_message" → d2.receiverId = u →
      2 ≤ pushCountTo
        (wsOnMessage
          (wsOnMessage
            (wsOnMessage clients store ws none openOf faults now (Inbound.frame d)).clients
            store ws (some u) openOf faults now (Inbound.frame d)).clients
          store2 ws2 (some u2) openOf noFaults now (Inbound.frame d2)).trace ws) := by
  have hreg : connectionsFor
      (wsOnMessage
        (wsOnMessage clients store ws none openOf faults now (Inbound.frame d)).clients
        store ws (some u) openOf faults now (Inbound.frame d)).clients u =
      connectionsFor clients u ++ [ws, ws] := by
    rw [wsOnMessage_auth_some clients store ws none openOf faults now d u hty hu]
    rw [wsOnMessage_auth_some _ store ws (some u) openOf faults now d u hty hu]
    rw [connectionsFor_mapSet_self, connectionsFor_mapSet_self]
    simp
  refine ⟨hreg, ?_⟩
  intro ws2 u2 d2 store2 hty2 hrecv
  rw [wsOnMessage_pm_ok _ store2 ws2 u2 openOf noFaults now d2 hty2 rfl]
  unfold pushCountTo
  rw [List.countP_cons]
  simp only [isPushTo_persistDM, Bool.false_eq_true, reduceIte, Nat.add_zero]
  rw [List.countP_map]
  have hcomp : ((fun e => Event.isPushTo e ws) ∘
      fun c2 => Event.send c2 (OutFrame.privateMessage
        (store2.createMessage (dmInsert u2 d2) now).1)) = fun c2 => c2 == ws := rfl
  rw [hcomp, countP_beq_eq_count, hrecv, hreg]
  rw [List.filter_append, List.count_append]
  have htail : List.count ws (List.filter openOf [ws, ws]) = 2 := by
    simp [List.filter, hopen]
  rw [htail]
  exact Nat.le_add_left 2 _

/-- Witness for the amended C5 at a concrete input. -/
theorem c5_witness :
    ((authFrame 7).type = "auth" ∧ (authFrame 7).userId = some 7 ∧
     (fun _ : Conn => true) (Conn.mk 1) = true) ∧
    connectionsFor
      (wsOnMessage
        (wsOnMessage [] emptyStore (Conn.mk 1) none (fun _ => true) noFaults 0
          (Inbound.frame (authFrame 7))).clients
        emptyStore (Conn.mk 1) (some 7) (fun _ => true) noFaults 0
        (Inbound.frame (authFrame 7))).clients 7 =
      connectionsFor [] 7 ++ [Conn.mk 1, Conn.mk 1] :=
  ⟨⟨rfl, rfl, rfl⟩,
   (c5_register_appends_again [] emptyStore (Conn.mk 1) 7 (fun _ => true) noFaults 0
     (authFrame 7) rfl rfl rfl).1⟩

/-- Counterexample to claim C6 as stated: `userId 0` is not a positive
integer identifier, yet the server accepts the auth frame — the connection
becomes authenticated as user 0, is registered under 0, and receives
`auth_success` — because the source only checks `typeof data.userId ===
'number'`. -/
theorem c6_counterexample :
    (wsOnMessage [] emptyStore (Conn.mk 1) none (fun _ => true) noFaults 0
      (Inbound.frame (authFrame 0))).userId = some 0 ∧
    connectionsFor
      (wsOnMessage [] emptyStore (Conn.mk 1) none (fun _ => true) noFaults 0
        (Inbound.frame (authFrame 0))).clients 0 = [Conn.mk 1] ∧
    Event.send (Conn.mk 1) OutFrame.authSuccess ∈
      (wsOnMessage [] emptyStore (Conn.mk 1) none (fun _ => true) noFaults 0
        (Inbound.frame (authFrame 0))).trace := by
  refine ⟨by decide, by decide, by decide⟩

/-- Claim C6 (amended): an auth frame whose `userId` is not a number is
tolerated silently — the connection stays in its previous authentication
state, the registry is untouched, and nothing (neither `auth_success` nor an
error, nor a close) is sent; but every numeric `userId`, including zero and
negative values, is accepted: the connection is registered under it and
acknowledged with `auth_success`. -/
theorem c6_auth_checks_number_only
    (clients : Registry) (store : MemStorage) (ws : Conn) (uid0 : Option Int)
    (openOf : Conn → Bool) (faults : Faults) (now : Nat) (d : FrameData)
    (hty : d.type = "auth") :
    (d.userId = none →
      (wsOnMessage clients store ws uid0 openOf faults now (Inbound.frame d)).clients = clients ∧
      (wsOnMessage clients store ws uid0 openOf faults now (Inbound.frame d)).userId = uid0 ∧
      (wsOnMessage clients store ws uid0 openOf faults now (Inbound.frame d)).trace = [] ∧
      (wsOnMessage clients store ws uid0 openOf faults now (Inbound.frame d)).store = store) ∧
    (∀ n : Int, d.userId = some n →
      (wsOnMessage clients store ws uid0 openOf faults now (Inbound.frame d)).userId = some n ∧
      connectionsFor
        (wsOnMessage clients store ws uid0 openOf faults now (Inbound.frame d)).clients n =
        connectionsFor clients n ++ [ws] ∧
      (wsOnMessage clients store ws uid0 openOf faults now (Inbound.frame d)).trace =
        [Event.send ws OutFrame.authSuccess]) := by
  constructor
  · intro hnone
    rw [wsOnMessage_auth_none clients store ws uid0 openOf faults now d hty hnone]
    exact ⟨rfl, rfl, rfl, rfl⟩
  · intro n hsome
    rw [wsOnMessage_auth_some clients store ws uid0 openOf faults now d n hty hsome]
    exact ⟨rfl, connectionsFor_mapSet_self _ _ _, rfl⟩

/-- Witness for the amended C6 at a concrete input (a negative userId). -/
theorem c6_witness :
    (authFrame (-3)).type = "auth" ∧
    ((authFrame (-3)).userId = none →
      (wsOnMessage [] emptyStore (Conn.mk 1) none (fun _ => true) noFaults 0
        (Inbound.frame (authFrame (-3)))).clients = [] ∧
      (wsOnMessage [] emptyStore (Conn.mk 1) none (fun _ => true) noFaults 0
        (Inbound.frame (authFrame (-3)))).userId = none ∧
      (wsOnMessage [] emptyStore (Conn.mk 1) none (fun _ => true) noFaults 0
        (Inbound.frame (authFrame (-3)))).trace = [] ∧
      (wsOnMessage [] emptyStore (Conn.mk 1) none (fun _ => true) noFaults 0
        (Inbound.frame (authFrame (-3)))).store = emptyStore) ∧
    (∀ n : Int, (authFrame (-3)).userId = some n →
      (wsOnMessage [] emptyStore (Conn.mk 1) none (fun _ => true) noFaults 0
        (Inbound.frame (authFrame (-3)))).userId = some n ∧
      connectionsFor
        (wsOnMessage [] emptyStore (Conn.mk 1) none (fun _ => true) noFaults 0
          (Inbound.frame (authFrame (-3)))).clients n =
        connectionsFor [] n ++ [Conn.mk 1] ∧
      (wsOnMessage [] emptyStore (Conn.mk 1) none (fun _ => true) noFaults 0
        (Inbound.frame (authFrame (-3)))).trace =
        [Event.send (Conn.mk 1) OutFrame.authSuccess]) :=
  ⟨rfl,
   c6_auth_checks_number_only [] emptyStore (Conn.mk 1) none (fun _ => true) noFaults 0
     (authFrame (-3)) rfl⟩

/-- Counterexample to claim C7 as stated: a `private_message` whose `content`
and `mediaUrl` are both empty is persisted anyway — the store gains a message
— because the handler performs no validation before `createMessage`. -/
theorem c7_counterexample :
    (wsOnMessage [] emptyStore (Conn.mk 1) (some 1) (fun _ => true) noFaults 0
      (Inbound.frame (pmFrame 2 ""))).store.messages.length = 1 := by
  decide

/-- Claim C7 (amended): the handler validates nothing before persisting: a
`private_message` from an authenticated sender with both `content` and
`mediaUrl` empty is passed straight to `createMessage`, so the store ends with
the (empty-content) message appended. -/
theorem c7_no_validation_before_persist
    (clients : Registry) (store : MemStorage) (ws : Conn) (u : Int)
    (openOf : Conn → Bool) (now : Nat) (d : FrameData)
    (hty : d.type = "private_message") (hc : d.content = "") (hm : d.mediaUrl = "") :
    (wsOnMessage clients store ws (some u) openOf noFaults now (Inbound.frame d)).store.messages =
      store.messages ++ [(store.createMessage (dmInsert u d) now).1] ∧
    (store.createMessage (dmInsert u d) now).1.content = "" ∧
    (store.createMessage (dmInsert u d) now).1.mediaUrl = "" := by
  rw [wsOnMessage_pm_ok clients store ws u openOf noFaults now d hty rfl]
  refine ⟨rfl, ?_, ?_⟩
  · simp [MemStorage.createMessage, dmInsert, hc]
  · simp [MemStorage.createMessage, dmInsert, hm, jsOr]

/-- Witness for the amended C7 at a concrete input. -/
theorem c7_witness :
    ((pmFrame 2 "").type = "private_message" ∧ (pmFrame 2 "").content = "" ∧
     (pmFrame 2 "").mediaUrl = "") ∧
    ((wsOnMessage [] emptyStore (Conn.mk 1) (some 1) (fun _ => true) noFaults 0
      (Inbound.frame (pmFrame 2 ""))).store.messages =
      emptyStore.messages ++ [(emptyStore.createMessage (dmInsert 1 (pmFrame 2 "")) 0).1] ∧
    (emptyStore.createMessage (dmInsert 1 (pmFrame 2 "")) 0).1.content = "" ∧
    (emptyStore.createMessage (dmInsert 1 (pmFrame 2 "")) 0).1.mediaUrl = "") :=
  ⟨⟨rfl, rfl, rfl⟩,
   c7_no_validation_before_persist [] emptyStore (Conn.mk 1) 1 (fun _ => true) 0
     (pmFrame 2 "") rfl rfl rfl⟩

/-- An inbound frame of a kind the server does not know. -/
def pingFrame : FrameData :=
  { type := "ping", userId := none, receiverId := 0, roomId := 0,
    content := "", mediaType := "", mediaUrl := "" }

/-- Counterexample to claim C8 as stated: a syntactically valid frame of
unknown type gets NO response at all — the trace is empty, no `error` frame is
sent — because no `if` branch matches and nothing throws. -/
theorem c8_counterexample :
    (wsOnMessage [] emptyStore (Conn.mk 1) none (fun _ => true) noFaults 0
      (Inbound.frame pingFrame)).trace = [] := by
  decide

/-- Claim C8 (amended): input that `JSON.parse` rejects lands in the catch,
which answers the originating (open) connection with the `error` frame and
changes nothing — registry, authentication state and store are untouched, and
the connection is not closed; a well-formed frame of unknown type, however, is
ignored silently: no error frame, no state change, no close. -/
theorem c8_malformed_frame_handling
    (clients : Registry) (store : MemStorage) (ws : Conn) (uid0 : Option Int)
    (openOf : Conn → Bool) (faults : Faults) (now : Nat) :
    (openOf ws = true →
      (wsOnMessage clients store ws uid0 openOf faults now Inbound.invalidJson).trace =
        [Event.send ws (OutFrame.error "Failed to process message")] ∧
      (wsOnMessage clients store ws uid0 openOf faults now Inbound.invalidJson).clients = clients ∧
      (wsOnMessage clients store ws uid0 openOf faults now Inbound.invalidJson).userId = uid0 ∧
      (wsOnMessage clients store ws uid0 openOf faults now Inbound.invalidJson).store = store) ∧
    (∀ d : FrameData,
      d.type ≠ "auth" → d.type ≠ "private_message" → d.type ≠ "chat_message" →
      (wsOnMessage clients store ws uid0 openOf faults now (Inbound.frame d)).trace = [] ∧
      (wsOnMessage clients store ws uid0 openOf faults now (Inbound.frame d)).clients = clients ∧
      (wsOnMessage clients store ws uid0 openOf faults now (Inbound.frame d)).userId = uid0 ∧
      (wsOnMessage clients store ws uid0 openOf faults now (Inbound.frame d)).store = store) := by
  constructor
  · intro hopen
    rw [wsOnMessage_invalidJson clients store ws uid0 openOf faults now]
    refine ⟨?_, rfl, rfl, rfl⟩
    simp [hopen]
  · intro d h1 h2 h3
    rw [wsOnMessage_unknown_type clients store ws uid0 openOf faults now d h1 h2 h3]
    exact ⟨rfl, rfl, rfl, rfl⟩

/-- Witness for the amended C8 at a concrete input. -/
theorem c8_witness :
    ((fun _ : Conn => true) (Conn.mk 1) = true ∧ pingFrame.type ≠ "auth" ∧
     pingFrame.type ≠ "private_message" ∧ pingFrame.type ≠ "chat_message") ∧
    ((wsOnMessage [] emptyStore (Conn.mk 1) none (fun _ => true) noFaults 0
        Inbound.invalidJson).trace =
      [Event.send (Conn.mk 1) (OutFrame.error "Failed to process message")] ∧
     (wsOnMessage [] emptyStore (Conn.mk 1) none (fun _ => true) noFaults 0
        Inbound.invalidJson).clients = [] ∧
     (wsOnMessage [] emptyStore (Conn.mk 1) none (fun _ => true) noFaults 0
        Inbound.invalidJson).userId = none ∧
     (wsOnMessage [] emptyStore (Conn.mk 1) none (fun _ => true) noFaults 0
        Inbound.invalidJson).store = emptyStore) ∧
    ((wsOnMessage [] emptyStore (Conn.mk 1) none (fun _ => true) noFaults 0
        (Inbound.frame pingFrame)).trace = [] ∧
     (wsOnMessage [] emptyStore (Conn.mk 1) none (fun _ => true) noFaults 0
        (Inbound.frame pingFrame)).clients = [] ∧
     (wsOnMessage [] emptyStore (Conn.mk 1) none (fun _ => true) noFaults 0
        (Inbound.frame pingFrame)).userId = none ∧
     (wsOnMessage [] emptyStore (Conn.mk 1) none (fun _ => true) noFaults 0
        (Inbound.frame pingFrame)).store = emptyStore) :=
  ⟨⟨rfl, by decide, by decide, by decide⟩,
   (c8_malformed_frame_handling [] emptyStore (Conn.mk 1) none (fun _ => true) noFaults 0).1 rfl,
   (c8_malformed_frame_handling [] emptyStore (Conn.mk 1) none (fun _ => true) noFaults 0).2
     pingFrame (by decide) (by decide) (by decide)⟩

/-- Claim C9: the client's `sendPrivateMessage` and `sendChatRoomMessage`
return `false` and write nothing to the socket (no queueing) whenever the
transport is not open or the manager is not authenticated; when it is open
and authenticated they write exactly the one frame and return `true`. -/
theorem c9_send_gated_on_open_and_auth
    (sc : SocketClient) (rid rm : Int) (content mt mu : String) :
    ((sc.isConnected = false ∨ sc.isAuthenticated = false) →
      sc.sendPrivateMessage rid content mt mu = (false, []) ∧
      sc.sendChatRoomMessage rm content mt mu = (false, [])) ∧
    (sc.isConnected = true → sc.isAuthenticated = true →
      sc.sendPrivateMessage rid content mt mu =
        (true, [ClientOut.privateMessage rid content mt mu]) ∧
      sc.sendChatRoomMessage rm content mt mu =
        (true, [ClientOut.chatMessage rm content mt mu])) := by
  constructor
  · intro h
    rcases h with h | h
    · exact ⟨by simp [SocketClient.sendPrivateMessage, h],
             by simp [SocketClient.sendChatRoomMessage, h]⟩
    · exact ⟨by simp [SocketClient.sendPrivateMessage, h],
             by simp [SocketClient.sendChatRoomMessage, h]⟩
  · intro h1 h2
    exact ⟨by simp [SocketClient.sendPrivateMessage, h1, h2],
           by simp [SocketClient.sendChatRoomMessage, h1, h2]⟩

/-- An open, authenticated client manager. -/
def scReady : SocketClient :=
  { socket := some RState.opened, authenticated := true }

/-- A client manager whose transport is open but which has not yet received
`auth_success`. -/
def scUnauth : SocketClient :=
  { socket := some RState.opened, authenticated := false }

/-- Witness for C9 at concrete inputs: both the refusing branch (open but
unauthenticated) and the transmitting branch (open and authenticated). -/
theorem c9_witness :
    (scUnauth.isAuthenticated = false ∧ scReady.isConnected = true ∧
     scReady.isAuthenticated = true) ∧
    (scUnauth.sendPrivateMessage 5 "hi" "text" "" = (false, []) ∧
     scUnauth.sendChatRoomMessage 3 "hi" "text" "" = (false, [])) ∧
    (scReady.sendPrivateMessage 5 "hi" "text" "" =
       (true, [ClientOut.privateMessage 5 "hi" "text" ""]) ∧
     scReady.sendChatRoomMessage 3 "hi" "text" "" =
       (true, [ClientOut.chatMessage 3 "hi" "text" ""])) :=
  ⟨⟨rfl, rfl, rfl⟩,
   (c9_send_gated_on_open_and_auth scUnauth 5 3 "hi" "text" "").1 (Or.inr rfl),
   (c9_send_gated_on_open_and_auth scReady 5 3 "hi" "text" "").2 rfl rfl⟩

/-- A connection in `L` that the environment marks closed receives nothing
from a fan-out over `L`. -/
theorem count_filter_not_open (L : List Conn) (ws : Conn) (openOf2 : Conn → Bool)
    (h : openOf2 ws = false) : (L.filter openOf2).count ws = 0 := by
  rw [List.count_eq_zero]
  intro hmem
  have hopen := (List.mem_filter.mp hmem).2
  rw [h] at hopen
  cases hopen

/-- Claim C10: a connection that authenticates as `u1` and then re-authenticates
as `u2 ≠ u1` is appended to `u2`'s registry list while staying in `u1`'s; its
transport close (handled with the latest `userId`, here `u2 ≠ 0`) removes it
only from `u2`'s list, so the handle remains in `u1`'s entry; on any later
direct-message delivery while that handle is closed, the open-state guard skips
it — zero pushes reach it — although it is still enumerated in `u1`'s entry. -/
theorem c10_reauth_leaves_stale_handle
    (clients : Registry) (store : MemStorage) (ws : Conn) (u1 u2 : Int)
    (openOf : Conn → Bool) (faults : Faults) (now : Nat) (d1 d2 : FrameData)
    (h1ty : d1.type = "auth") (h1u : d1.userId = some u1)
    (h2ty : d2.type = "auth") (h2u : d2.userId = some u2)
    (hne : u1 ≠ u2) (h2z : u2 ≠ 0) :
    connectionsFor
      (wsOnMessage
        (wsOnMessage clients store ws none openOf faults now (Inbound.frame d1)).clients
        store ws (some u1) openOf faults now (Inbound.frame d2)).clients u1 =
      connectionsFor clients u1 ++ [ws] ∧
    connectionsFor
      (wsOnMessage
        (wsOnMessage clients store ws none openOf faults now (Inbound.frame d1)).clients
        store ws (some u1) openOf faults now (Inbound.frame d2)).clients u2 =
      connectionsFor clients u2 ++ [ws] ∧
    (wsOnMessage
      (wsOnMessage clients store ws none openOf faults now (Inbound.frame d1)).clients
      store ws (some u1) openOf faults now (Inbound.frame d2)).userId = some u2 ∧
    connectionsFor
      (handleClose
        (wsOnMessage
          (wsOnMessage clients store ws none openOf faults now (Inbound.frame d1)).clients
          store ws (some u1) openOf faults now (Inbound.frame d2)).clients ws (some u2)) u2 =
      (connectionsFor clients u2 ++ [ws]).filter (fun c => c != ws) ∧
    ws ∈ connectionsFor
      (handleClose
        (wsOnMessage
          (wsOnMessage clients store ws none openOf faults now (Inbound.frame d1)).clients
          store ws (some u1) openOf faults now (Inbound.frame d2)).clients ws (some u2)) u1 ∧
    (∀ (ws2 : Conn) (u3 : Int) (d3 : FrameData) (openOf2 : Conn → Bool) (store2 : MemStorage),
      d3.type = "private_message" → d3.receiverId = u1 → openOf2 ws = false →
      pushCountTo
        (wsOnMessage
          (handleClose
            (wsOnMessage
              (wsOnMessage clients store ws none openOf faults now (Inbound.frame d1)).clients
              store ws (some u1) openOf faults now (Inbound.frame d2)).clients ws (some u2))
          store2 ws2 (some u3) openOf2 noFaults now (Inbound.frame d3)).trace ws = 0) := by
  rw [wsOnMessage_auth_some clients store ws none openOf faults now d1 u1 h1ty h1u]
  rw [wsOnMessage_auth_some _ store ws (some u1) openOf faults now d2 u2 h2ty h2u]
  have hcf1 : connectionsFor
      (mapSet (mapSet clients u1 (connectionsFor clients u1 ++ [ws])) u2
        (connectionsFor (mapSet clients u1 (connectionsFor clients u1 ++ [ws])) u2 ++ [ws])) u1 =
      connectionsFor clients u1 ++ [ws] := by
    rw [connectionsFor_mapSet_ne _ u2 u1 _ (fun h => hne h.symm), connectionsFor_mapSet_self]
  have hcf2 : connectionsFor
      (mapSet (mapSet clients u1 (connectionsFor clients u1 ++ [ws])) u2
        (connectionsFor (mapSet clients u1 (connectionsFor clients u1 ++ [ws])) u2 ++ [ws])) u2 =
      connectionsFor clients u2 ++ [ws] := by
    rw [connectionsFor_mapSet_self, connectionsFor_mapSet_ne _ u1 u2 _ hne]
  have hclose : handleClose
      (mapSet (mapSet clients u1 (connectionsFor clients u1 ++ [ws])) u2
        (connectionsFor (mapSet clients u1 (connectionsFor clients u1 ++ [ws])) u2 ++ [ws]))
      ws (some u2) =
      mapSet
        (mapSet (mapSet clients u1 (connectionsFor clients u1 ++ [ws])) u2
          (connectionsFor (mapSet clients u1 (connectionsFor clients u1 ++ [ws])) u2 ++ [ws]))
        u2
        ((connectionsFor clients u2 ++ [ws]).filter (fun c => c != ws)) := by
    simp [handleClose, h2z, hcf2]
  refine ⟨hcf1, hcf2, rfl, ?_, ?_, ?_⟩
  · rw [hclose, connectionsFor_mapSet_self]
  · rw [hclose, connectionsFor_mapSet_ne _ u2 u1 _ (fun h => hne h.symm), hcf1]
    exact List.mem_append_right _ (List.mem_singleton.mpr rfl)
  · intro ws2 u3 d3 openOf2 store2 h3ty _h3r hclosed
    rw [wsOnMessage_pm_ok _ store2 ws2 u3 openOf2 noFaults now d3 h3ty rfl]
    unfold pushCountTo
    rw [List.countP_cons]
    simp only [isPushTo_persistDM, Bool.false_eq_true, reduceIte, Nat.add_zero]
    rw [List.countP_map]
    have hcomp : ((fun e => Event.isPushTo e ws) ∘
        fun c2 => Event.send c2 (OutFrame.privateMessage
          (store2.createMessage (dmInsert u3 d3) now).1)) = fun c2 => c2 == ws := rfl
    rw [hcomp, countP_beq_eq_count]
    exact count_filter_not_open _ ws openOf2 hclosed

/-- A store behaviour where `createMessage` throws. -/
def dmFault : Faults := { createMessageFails := true, createChatMessageFails := false }

/-- Witness for C1 at a concrete input (a direct message whose persistence
fails). -/
theorem c1_witness :
    (((pmFrame 2 "hi").type = "private_message" ∨ (pmFrame 2 "hi").type = "chat_message") ∧
     (fun _ : Conn => true) (Conn.mk 1) = true) ∧
    ((∀ n : Nat,
      (((wsOnMessage [] emptyStore (Conn.mk 1) (some 1) (fun _ => true) dmFault 0
          (Inbound.frame (pmFrame 2 "hi"))).trace.take n).any Event.isPush) = true →
      (((wsOnMessage [] emptyStore (Conn.mk 1) (some 1) (fun _ => true) dmFault 0
          (Inbound.frame (pmFrame 2 "hi"))).trace.take n).any Event.isPersist) = true) ∧
    ((((pmFrame 2 "hi").type = "private_message" ∧ dmFault.createMessageFails = true) ∨
      ((pmFrame 2 "hi").type = "chat_message" ∧ dmFault.createChatMessageFails = true)) →
      (wsOnMessage [] emptyStore (Conn.mk 1) (some 1) (fun _ => true) dmFault 0
        (Inbound.frame (pmFrame 2 "hi"))).trace.countP Event.isPush = 0 ∧
      Event.send (Conn.mk 1) (OutFrame.error "Failed to process message") ∈
        (wsOnMessage [] emptyStore (Conn.mk 1) (some 1) (fun _ => true) dmFault 0
          (Inbound.frame (pmFrame 2 "hi"))).trace)) :=
  ⟨⟨Or.inl rfl, rfl⟩,
   c1_no_push_before_persist [] emptyStore (Conn.mk 1) 1 (fun _ => true) dmFault 0
     (pmFrame 2 "hi") (Or.inl rfl) rfl⟩

/-- The registry of the spec's C2 scenario: user 42 has one connection, user
99 has none. -/
def reg42 : Registry := [(42, [Conn.mk 1])]

/-- Witness for C2 at the spec's scenario: user 42 sends to offline user 99. -/
theorem c2_witness :
    ((pmFrame 99 "hi").type = "private_message" ∧ (42 : Int) ≠ (pmFrame 99 "hi").receiverId ∧
     (connectionsFor reg42 (pmFrame 99 "hi").receiverId).Nodup) ∧
    ((∀ c : Conn, c ∈ connectionsFor reg42 (pmFrame 99 "hi").receiverId →
       (fun _ : Conn => true) c = true →
      (wsOnMessage reg42 emptyStore (Conn.mk 1) (some 42) (fun _ => true) noFaults 0
        (Inbound.frame (pmFrame 99 "hi"))).trace.count
        (Event.send c (OutFrame.privateMessage
          (emptyStore.createMessage (dmInsert 42 (pmFrame 99 "hi")) 0).1)) = 1 ∧
      pushCountTo
        (wsOnMessage reg42 emptyStore (Conn.mk 1) (some 42) (fun _ => true) noFaults 0
          (Inbound.frame (pmFrame 99 "hi"))).trace c = 1) ∧
    (∀ c : Conn, c ∉ connectionsFor reg42 (pmFrame 99 "hi").receiverId →
      pushCountTo
        (wsOnMessage reg42 emptyStore (Conn.mk 1) (some 42) (fun _ => true) noFaults 0
          (Inbound.frame (pmFrame 99 "hi"))).trace c = 0) ∧
    ((connectionsFor reg42 (pmFrame 99 "hi").receiverId).filter (fun _ => true) = [] →
      (wsOnMessage reg42 emptyStore (Conn.mk 1) (some 42) (fun _ => true) noFaults 0
        (Inbound.frame (pmFrame 99 "hi"))).trace.countP Event.isPush = 0) ∧
    ((emptyStore.createMessage (dmInsert 42 (pmFrame 99 "hi")) 0).1 ∈
      (wsOnMessage reg42 emptyStore (Conn.mk 1) (some 42) (fun _ => true) noFaults 0
        (Inbound.frame (pmFrame 99 "hi"))).store.messages ∧
     (emptyStore.createMessage (dmInsert 42 (pmFrame 99 "hi")) 0).1.senderId = 42 ∧
     (emptyStore.createMessage (dmInsert 42 (pmFrame 99 "hi")) 0).1.receiverId =
       (pmFrame 99 "hi").receiverId ∧
     (emptyStore.createMessage (dmInsert 42 (pmFrame 99 "hi")) 0).1.content =
       (pmFrame 99 "hi").content ∧
     (emptyStore.createMessage (dmInsert 42 (pmFrame 99 "hi")) 0).1.read = false)) :=
  ⟨⟨rfl, by decide, by decide⟩,
   c2_direct_message_fanout reg42 emptyStore (Conn.mk 1) 42 (fun _ => true) 0
     (pmFrame 99 "hi") rfl (by decide) (by decide)⟩

/-- The store of the spec's C3 scenario: users 1, 2, 3 are all members of
room 5. -/
def roomStore : MemStorage :=
  { users := [User.mk 1, User.mk 2, User.mk 3], messages := [], chatMessages := [],
    roomMembers := [RoomMember.mk 1 5 1, RoomMember.mk 2 5 2, RoomMember.mk 3 5 3],
    currentMessageId := 1, currentChatMessageId := 1 }

/-- The registry of the spec's C3 scenario: member 1 has one connection,
member 2 has two, member 3 is offline. -/
def roomClients : Registry := [(1, [Conn.mk 1]), (2, [Conn.mk 2, Conn.mk 3])]

/-- Witness for C3 at the spec's scenario (room 5 with members 1, 2, 3). -/
theorem c3_witness :
    ((cmFrame 5 "hello").type = "chat_message" ∧
     (roomStore.users.map User.id).Nodup ∧
     (∀ m ∈ roomStore.getRoomMembers (cmFrame 5 "hello").roomId,
       (connectionsFor roomClients m.id).Nodup) ∧
     (∀ m1 ∈ roomStore.getRoomMembers (cmFrame 5 "hello").roomId,
      ∀ m2 ∈ roomStore.getRoomMembers (cmFrame 5 "hello").roomId,
       m1 ≠ m2 → ∀ c ∈ connectionsFor roomClients m1.id,
         c ∉ connectionsFor roomClients m2.id)) ∧
    (((wsOnMessage roomClients roomStore (Conn.mk 1) (some 1) (fun _ => true) noFaults 0
        (Inbound.frame (cmFrame 5 "hello"))).store.getRoomMembers (cmFrame 5 "hello").roomId =
      roomStore.getRoomMembers (cmFrame 5 "hello").roomId) ∧
    (∀ m ∈ roomStore.getRoomMembers (cmFrame 5 "hello").roomId,
      ∀ c ∈ connectionsFor roomClients m.id, (fun _ : Conn => true) c = true →
      (wsOnMessage roomClients roomStore (Conn.mk 1) (some 1) (fun _ => true) noFaults 0
        (Inbound.frame (cmFrame 5 "hello"))).trace.count
        (Event.send c (OutFrame.chatMessage
          (roomStore.createChatMessage (cmInsert 1 (cmFrame 5 "hello")) 0).1)) = 1) ∧
    (∀ c : Conn, (fun _ : Conn => true) c = false →
      pushCountTo
        (wsOnMessage roomClients roomStore (Conn.mk 1) (some 1) (fun _ => true) noFaults 0
          (Inbound.frame (cmFrame 5 "hello"))).trace c = 0) ∧
    (∀ c : Conn,
      0 < pushCountTo
        (wsOnMessage roomClients roomStore (Conn.mk 1) (some 1) (fun _ => true) noFaults 0
          (Inbound.frame (cmFrame 5 "hello"))).trace c →
      (fun _ : Conn => true) c = true ∧
      ∃ m, m ∈ roomStore.getRoomMembers (cmFrame 5 "hello").roomId ∧
        c ∈ connectionsFor roomClients m.id) ∧
    ((roomStore.createChatMessage (cmInsert 1 (cmFrame 5 "hello")) 0).1 ∈
      (wsOnMessage roomClients roomStore (Conn.mk 1) (some 1) (fun _ => true) noFaults 0
        (Inbound.frame (cmFrame 5 "hello"))).store.getChatMessagesByRoomId
        (cmFrame 5 "hello").roomId)) :=
  ⟨⟨rfl, by decide, by decide, by decide⟩,
   c3_room_message_fanout roomClients roomStore (Conn.mk 1) 1 (fun _ => true) 0
     (cmFrame 5 "hello") rfl (by decide) (by decide) (by decide)⟩

/-- Witness for C10 at a concrete input: one connection authenticates as user
1, re-authenticates as user 2, then closes. -/
theorem c10_witness :
    ((authFrame 1).type = "auth" ∧ (authFrame 1).userId = some 1 ∧
     (authFrame 2).type = "auth" ∧ (authFrame 2).userId = some 2 ∧
     (1 : Int) ≠ 2 ∧ (2 : Int) ≠ 0) ∧
    (connectionsFor
      (wsOnMessage
        (wsOnMessage [] emptyStore (Conn.mk 1) none (fun _ => true) noFaults 0
          (Inbound.frame (authFrame 1))).clients
        emptyStore (Conn.mk 1) (some 1) (fun _ => true) noFaults 0
        (Inbound.frame (authFrame 2))).clients 1 =
      connectionsFor [] 1 ++ [Conn.mk 1] ∧
    connectionsFor
      (wsOnMessage
        (wsOnMessage [] emptyStore (Conn.mk 1) none (fun _ => true) noFaults 0
          (Inbound.frame (authFrame 1))).clients
        emptyStore (Conn.mk 1) (some 1) (fun _ => true) noFaults 0
        (Inbound.frame (authFrame 2))).clients 2 =
      connectionsFor [] 2 ++ [Conn.mk 1] ∧
    (wsOnMessage
      (wsOnMessage [] emptyStore (Conn.mk 1) none (fun _ => true) noFaults 0
        (Inbound.frame (authFrame 1))).clients
      emptyStore (Conn.mk 1) (some 1) (fun _ => true) noFaults 0
      (Inbound.frame (authFrame 2))).userId = some 2 ∧
    connectionsFor
      (handleClose
        (wsOnMessage
          (wsOnMessage [] emptyStore (Conn.mk 1) none (fun _ => true) noFaults 0
            (Inbound.frame (authFrame 1))).clients
          emptyStore (Conn.mk 1) (some 1) (fun _ => true) noFaults 0
          (Inbound.frame (authFrame 2))).clients (Conn.mk 1) (some 2)) 2 =
      (connectionsFor [] 2 ++ [Conn.mk 1]).filter (fun c => c != Conn.mk 1) ∧
    Conn.mk 1 ∈ connectionsFor
      (handleClose
        (wsOnMessage
          (wsOnMessage [] emptyStore (Conn.mk 1) none (fun _ => true) noFaults 0
            (Inbound.frame (authFrame 1))).clients
          emptyStore (Conn.mk 1) (some 1) (fun _ => true) noFaults 0
          (Inbound.frame (authFrame 2))).clients (Conn.mk 1) (some 2)) 1 ∧
    (∀ (ws2 : Conn) (u3 : Int) (d3 : FrameData) (openOf2 : Conn → Bool) (store2 : MemStorage),
      d3.type = "private_message" → d3.receiverId = 1 → openOf2 (Conn.mk 1) = false →
      pushCountTo
        (wsOnMessage
          (handleClose
            (wsOnMessage
              (wsOnMessage [] emptyStore (Conn.mk 1) none (fun _ => true) noFaults 0
                (Inbound.frame (authFrame 1))).clients
              emptyStore (Conn.mk 1) (some 1) (fun _ => true) noFaults 0
              (Inbound.frame (authFrame 2))).clients (Conn.mk 1) (some 2))
          store2 ws2 (some u3) openOf2 noFaults 0 (Inbound.frame d3)).trace (Conn.mk 1) = 0)) :=
  ⟨⟨rfl, rfl, rfl, rfl, by decide, by decide⟩,
   c10_reauth_leaves_stale_handle [] emptyStore (Conn.mk 1) 1 2 (fun _ => true) noFaults 0
     (authFrame 1) (authFrame 2) rfl rfl rfl rfl (by decide) (by decide)⟩

end ChatMod
